import Mathlib

/-!
Verification of the linmo kernel against its specification.

This development shallowly embeds the parts of the linmo source that the
claims concern:
  * the RISC-V PMP region engine (src/arch/riscv/entry.c),
  * the mutex and condition-variable module (the mutex implementation file),
  * the message-queue envelope (src/kernel/mqueue.c),
  * the mscratch discipline of the trap vector _isr (the boot and ISR file).

Machine integers are modelled as Nat with explicit reduction modulo 2^32
where the C code can overflow.  Nullable pointers are modelled as Option.
Fallible operations return their int32 status code together with the new
state; failure paths return the state unchanged, as the C code does not
mutate before validation.
-/

namespace Linmo

/-! ## Error codes

Modelled from the spec: the header private/error.h is not part of the
source tree; section 7 of the spec states that success is ERR_OK and every
failure is a distinct negative code.  Only distinctness and sign matter to
the claims, so representative values are chosen.
-/

def ERR_OK : Int := 0
def ERR_FAIL : Int := -1
def ERR_TIMEOUT : Int := -2
def ERR_TASK_BUSY : Int := -3
def ERR_NOT_OWNER : Int := -4
def ERR_SEM_OPERATION : Int := -5
def ERR_MQ_NOTEMPTY : Int := -6
def ERR_PMP_INVALID_REGION : Int := -7
def ERR_PMP_ADDR_RANGE : Int := -8
def ERR_PMP_LOCKED : Int := -9

/-! ## PMP constants, from the csr.h header embedded in the source -/

def PMPCFG_L : Nat := 0x80
def PMPCFG_A_TOR : Nat := 0x08
def PMPCFG_X : Nat := 0x04
def PMPCFG_W : Nat := 0x02
def PMPCFG_R : Nat := 0x01

/-- Modelled from the spec: PMP_MAX_REGIONS is defined in a header absent
from the tree; the spec and the source comments fix it at 16 regions. -/
def PMP_MAX_REGIONS : Nat := 16

/-- The 32-bit truncation used wherever the C code computes in uint32. -/
def u32 (n : Nat) : Nat := n % 2 ^ 32

/-! ## PMP data model, from pmp.h (present in the tree) and entry.c -/

/-- PMP region descriptor, mirroring the C struct pmp_region_t. -/
structure pmp_region_t where
  addr_start : Nat
  addr_end : Nat
  permissions : Nat
  priority : Nat
  region_id : Nat
  locked : Nat
deriving DecidableEq, Inhabited

/-- Shadow configuration, mirroring the C struct pmp_config_t.  The C
field regions is a fixed array of PMP_MAX_REGIONS entries; theorems that
need the fixed size carry the length as a hypothesis. -/
structure pmp_config_t where
  regions : List pmp_region_t
  region_count : Nat
  next_region_idx : Nat
  initialized : Nat
deriving DecidableEq

/-- The PMP hardware registers: four pmpcfg registers and sixteen pmpaddr
registers.  Reads beyond the range return 0 and writes beyond the range
are dropped, exactly as the switch-case dispatch helpers in entry.c do. -/
structure pmp_hw_t where
  cfgRegs : List Nat
  addrRegs : List Nat
deriving DecidableEq

/-- Read a pmpcfg register; out-of-range indices read as 0 (entry.c
read_pmpcfg default branch). -/
def read_pmpcfg (hw : pmp_hw_t) (idx : Nat) : Nat :=
  hw.cfgRegs.getD idx 0

/-- Write a pmpcfg register; out-of-range indices are ignored (entry.c
write_pmpcfg has no default case). -/
def write_pmpcfg (hw : pmp_hw_t) (idx : Nat) (val : Nat) : pmp_hw_t :=
  { hw with cfgRegs := hw.cfgRegs.set idx val }

/-- Write a pmpaddr register; out-of-range indices are ignored. -/
def write_pmpaddr (hw : pmp_hw_t) (idx : Nat) (val : Nat) : pmp_hw_t :=
  { hw with addrRegs := hw.addrRegs.set idx val }

/-- Configuration byte for one region: TOR mode, masked permissions, and
the lock bit when requested (entry.c pmp_set_region body). -/
def pmp_cfg_byte (region : pmp_region_t) : Nat :=
  let perm := region.permissions &&& (PMPCFG_R ||| PMPCFG_W ||| PMPCFG_X)
  let base := PMPCFG_A_TOR ||| perm
  if region.locked ≠ 0 then base ||| PMPCFG_L else base

/-- Clear the 8 configuration bits of one slot inside a pmpcfg register,
as the C expression pmpcfg_val AND NOT (0xFF shifted by offset) does on a
uint32 value. -/
def pmp_clear_slot (val offset : Nat) : Nat :=
  val &&& ((2 ^ 32 - 1) ^^^ (0xFF <<< offset))

/-- Embedding of pmp_set_region from entry.c.  Returns the status code
with the hardware and shadow state; both are unchanged on failure. -/
def pmp_set_region (hw : pmp_hw_t) (config : pmp_config_t)
    (region : pmp_region_t) : Int × pmp_hw_t × pmp_config_t :=
  if region.region_id ≥ PMP_MAX_REGIONS then
    (ERR_PMP_INVALID_REGION, hw, config)
  else if region.addr_start ≥ region.addr_end then
    (ERR_PMP_ADDR_RANGE, hw, config)
  else if (config.regions.getD region.region_id default).locked ≠ 0 then
    (ERR_PMP_LOCKED, hw, config)
  else
    let region_idx := region.region_id
    let pmpcfg_idx := region_idx / 4
    let pmpcfg_offset := region_idx % 4 * 8
    let pmpcfg_byte := pmp_cfg_byte region
    let pmpcfg_val := read_pmpcfg hw pmpcfg_idx
    let pmpcfg_val := pmp_clear_slot pmpcfg_val pmpcfg_offset
    let pmpcfg_val := pmpcfg_val ||| (pmpcfg_byte <<< pmpcfg_offset)
    let hw := write_pmpaddr hw region_idx region.addr_end
    let hw := write_pmpcfg hw pmpcfg_idx pmpcfg_val
    let shadow : pmp_region_t :=
      { addr_start := region.addr_start
        addr_end := region.addr_end
        permissions := region.permissions
        priority := region.priority
        region_id := region_idx
        locked := region.locked }
    let config :=
      { config with
        regions := config.regions.set region_idx shadow
        region_count :=
          if region_idx ≥ config.region_count then region_idx + 1
          else config.region_count }
    (ERR_OK, hw, config)

/-- Embedding of pmp_get_region from entry.c: validates the index and
reads the shadow entry, normalizing the region_id field. -/
def pmp_get_region (config : pmp_config_t) (region_idx : Nat) :
    Except Int pmp_region_t :=
  if region_idx ≥ PMP_MAX_REGIONS then .error ERR_PMP_INVALID_REGION
  else
    let sh := config.regions.getD region_idx default
    .ok { addr_start := sh.addr_start
          addr_end := sh.addr_end
          permissions := sh.permissions
          priority := sh.priority
          region_id := region_idx
          locked := sh.locked }

/-- Permission bits demanded by an access, as computed inside the scan
loop of pmp_check_access: W for a write, X for an execute, both when both
flags are set, and R for a plain read. -/
def pmp_required_perm (is_write is_execute : Nat) : Nat :=
  if is_write = 0 ∧ is_execute = 0 then PMPCFG_R
  else
    (if is_write ≠ 0 then PMPCFG_W else 0) |||
    (if is_execute ≠ 0 then PMPCFG_X else 0)

/-- One region is consulted by the scan when it is not disabled (shadow
start and end both 0) and fully contains the access interval. -/
def pmp_region_hits (addr access_end : Nat) (r : pmp_region_t) : Bool :=
  !(r.addr_start == 0 && r.addr_end == 0) &&
    (r.addr_start ≤ addr && access_end ≤ r.addr_end)

/-- The scan loop of pmp_check_access: first containing active region
decides, later regions are never consulted. -/
def pmp_check_scan (addr access_end is_write is_execute : Nat) :
    List pmp_region_t → Int
  | [] => 0
  | r :: rs =>
    if r.addr_start == 0 && r.addr_end == 0 then
      pmp_check_scan addr access_end is_write is_execute rs
    else if r.addr_start ≤ addr && access_end ≤ r.addr_end then
      let required := pmp_required_perm is_write is_execute
      if r.permissions &&& required == required then 1 else 0
    else
      pmp_check_scan addr access_end is_write is_execute rs

/-- Embedding of pmp_check_access from entry.c.  The access end is the
uint32 sum addr + size, hence the explicit reduction modulo 2^32.  The
loop runs over the first region_count shadow entries in index order. -/
def pmp_check_access (config : pmp_config_t)
    (addr size is_write is_execute : Nat) : Int :=
  pmp_check_scan addr (u32 (addr + size)) is_write is_execute
    (config.regions.take config.region_count)

/-! ## Task model

Modelled from the spec: the task module sys/task.c is not in the tree;
the spec (sections 2 and 5) describes its surface as a collaborator: a
current-task pointer, task ids, a state field among READY, RUNNING,
BLOCKED (plus STOPPED and SUSPENDED), a tick delay field, and the
yield-while-blocked primitive.  mo_task_id returns the id of the current
task; mo_task_yield and the internal _yield are the suspension points.
-/

inductive task_state_t where
  | stopped
  | ready
  | running
  | blocked
  | suspended
deriving DecidableEq

/-- Task control block fields the synchronization core touches. -/
structure tcb_t where
  id : Nat
  state : task_state_t
  delay : Nat
deriving DecidableEq

instance : Inhabited tcb_t := ⟨⟨0, .ready, 0⟩⟩

/-- Kernel view seen by the synchronization core: the task table and the
index of the current task.  Waiter lists hold task indices, playing the
role of the tcb pointers the C lists store. -/
structure kernel_t where
  tasks : List tcb_t
  curr : Nat
deriving DecidableEq

/-- Update one task control block in place; out-of-range indices leave
the table unchanged, matching a write through a valid pointer only. -/
def upd_task (ks : kernel_t) (i : Nat) (f : tcb_t → tcb_t) : kernel_t :=
  { ks with tasks := ks.tasks.set i (f (ks.tasks.getD i default)) }

/-- Modelled from the spec: mo_task_id returns the id of the currently
running task (spec section 2, task collaborator). -/
def mo_task_id (ks : kernel_t) : Nat :=
  (ks.tasks.getD ks.curr default).id

/-! ## Mutex and condition variable model, from the mutex source file -/

/-- Modelled from the spec: the magic tag values live in sys/mutex.h,
absent from the tree; only being fixed, nonzero and distinct from the
0xDEADBEEF destruction sentinel matters. -/
def MUTEX_MAGIC : Nat := 0x4D555458

/-- Modelled from the spec: magic tag for condition variables. -/
def COND_MAGIC : Nat := 0x434F4E44

/-- Mutex structure: magic tag, owner task id (0 = free), and the waiter
list pointer (none models a NULL pointer). -/
structure mutex_t where
  magic : Nat
  owner_tid : Nat
  waiters : Option (List Nat)
deriving DecidableEq

/-- Condition variable structure. -/
structure cond_t where
  magic : Nat
  waiters : Option (List Nat)
deriving DecidableEq

/-- Embedding of mutex_is_valid: non-null, magic intact, waiter list
allocated, owner id free or below UINT16_MAX. -/
def mutex_is_valid : Option mutex_t → Bool
  | none => false
  | some m =>
    m.magic == MUTEX_MAGIC && m.waiters.isSome &&
      (m.owner_tid == 0 || m.owner_tid < 65535)

/-- Embedding of cond_is_valid. -/
def cond_is_valid : Option cond_t → Bool
  | none => false
  | some c => c.magic == COND_MAGIC && c.waiters.isSome

/-- Outcome of an operation that may suspend the caller or panic.  The
ret form carries the status code visible to the caller together with the
post-state; blocked means the task was enqueued, marked BLOCKED and
yielded; panicked carries the panic code. -/
inductive lock_outcome_t where
  | ret (code : Int) (ks : kernel_t) (m : Option mutex_t)
  | blocked (ks : kernel_t) (m : Option mutex_t)
  | panicked (code : Int)
deriving DecidableEq

/-- Result of mo_mutex_unlock: status with post-state, or panic. -/
inductive unlock_result_t where
  | ok (code : Int) (ks : kernel_t) (m : Option mutex_t)
  | panicked (code : Int)
deriving DecidableEq

/-- Embedding of mo_mutex_lock.  An invalid mutex is a programming error
and panics; a mutex owned by the caller is refused; a free mutex is
acquired; otherwise mutex_block_atomic appends the caller to the waiter
FIFO, marks it BLOCKED and yields. -/
def mo_mutex_lock (ks : kernel_t) : Option mutex_t → lock_outcome_t
  | none => .panicked ERR_SEM_OPERATION
  | some m =>
    if mutex_is_valid (some m) then
      let self_tid := mo_task_id ks
      if m.owner_tid = self_tid then .ret ERR_TASK_BUSY ks (some m)
      else if m.owner_tid = 0 then
        .ret ERR_OK ks (some { m with owner_tid := self_tid })
      else
        let m := { m with waiters := m.waiters.map (· ++ [ks.curr]) }
        let ks := upd_task ks ks.curr (fun t => { t with state := .blocked })
        .blocked ks (some m)
    else .panicked ERR_SEM_OPERATION

/-- Embedding of mo_mutex_trylock: never blocks, never panics. -/
def mo_mutex_trylock (ks : kernel_t) :
    Option mutex_t → Int × kernel_t × Option mutex_t
  | none => (ERR_FAIL, ks, none)
  | some m =>
    if mutex_is_valid (some m) then
      let self_tid := mo_task_id ks
      if m.owner_tid = self_tid then (ERR_TASK_BUSY, ks, some m)
      else if m.owner_tid = 0 then
        (ERR_OK, ks, some { m with owner_tid := self_tid })
      else (ERR_TASK_BUSY, ks, some m)
    else (ERR_FAIL, ks, some m)

/-- Embedding of mo_mutex_timedlock up to its suspension point.  A zero
tick count delegates to mo_mutex_trylock; otherwise the slow path stores
the delay, marks the caller BLOCKED and yields. -/
def mo_mutex_timedlock (ks : kernel_t) (om : Option mutex_t)
    (ticks : Nat) : lock_outcome_t :=
  match om with
  | none => .ret ERR_FAIL ks none
  | some m =>
    if mutex_is_valid (some m) then
      if ticks = 0 then
        let r := mo_mutex_trylock ks (some m)
        .ret r.1 r.2.1 r.2.2
      else
        let self_tid := mo_task_id ks
        if m.owner_tid = self_tid then .ret ERR_TASK_BUSY ks (some m)
        else if m.owner_tid = 0 then
          .ret ERR_OK ks (some { m with owner_tid := self_tid })
        else
          let m := { m with waiters := m.waiters.map (· ++ [ks.curr]) }
          let ks := upd_task ks ks.curr
            (fun t => { t with delay := ticks, state := .blocked })
          .blocked ks (some m)
    else .ret ERR_FAIL ks (some m)

/-- Embedding of mo_mutex_unlock.  Only the owner may unlock; with no
waiters the mutex becomes free; otherwise ownership is handed to the
popped head of the FIFO, which must be BLOCKED (anything else is a task
state inconsistency and panics).  The C defensive branch for a null pop
from a non-empty list cannot arise in the model. -/
def mo_mutex_unlock (ks : kernel_t) : Option mutex_t → unlock_result_t
  | none => .ok ERR_FAIL ks none
  | some m =>
    if mutex_is_valid (some m) then
      let self_tid := mo_task_id ks
      if m.owner_tid ≠ self_tid then .ok ERR_NOT_OWNER ks (some m)
      else
        match m.waiters.getD [] with
        | [] => .ok ERR_OK ks (some { m with owner_tid := 0 })
        | w :: rest =>
          let next_owner := ks.tasks.getD w default
          if next_owner.state = .blocked then
            .ok ERR_OK
              (upd_task ks w (fun t => { t with state := .ready, delay := 0 }))
              (some { m with owner_tid := next_owner.id,
                             waiters := some rest })
          else .panicked ERR_SEM_OPERATION
    else .ok ERR_FAIL ks (some m)

/-- Embedding of mo_mutex_owned_by_current. -/
def mo_mutex_owned_by_current (ks : kernel_t) (om : Option mutex_t) : Bool :=
  match om with
  | none => false
  | some m =>
    mutex_is_valid (some m) && m.owner_tid == mo_task_id ks

/-- Embedding of mo_mutex_destroy.  Destroying NULL is a no-op returning
success; a busy mutex is refused; otherwise the magic is poisoned, the
owner id briefly set to the invalid sentinel, the waiter list freed and
the owner cleared. -/
def mo_mutex_destroy (ks : kernel_t) :
    Option mutex_t → Int × kernel_t × Option mutex_t
  | none => (ERR_OK, ks, none)
  | some m =>
    if mutex_is_valid (some m) then
      if m.waiters.getD [] ≠ [] then (ERR_TASK_BUSY, ks, some m)
      else if m.owner_tid ≠ 0 then (ERR_TASK_BUSY, ks, some m)
      else
        (ERR_OK, ks,
          some { magic := 0xDEADBEEF, owner_tid := 0, waiters := none })
    else (ERR_FAIL, ks, some m)

/-- Embedding of mo_cond_destroy. -/
def mo_cond_destroy (ks : kernel_t) :
    Option cond_t → Int × kernel_t × Option cond_t
  | none => (ERR_OK, ks, none)
  | some c =>
    if cond_is_valid (some c) then
      if c.waiters.getD [] ≠ [] then (ERR_TASK_BUSY, ks, some c)
      else (ERR_OK, ks, some { magic := 0xDEADBEEF, waiters := none })
    else (ERR_FAIL, ks, some c)

/-! ## Message queue, from src/kernel/mqueue.c -/

/-- Message queue: the q field models the underlying bounded queue
pointer, holding the queued message handles; none models a NULL pointer. -/
structure mq_t where
  q : Option (List Nat)
deriving DecidableEq

/-- Embedding of mo_mq_destroy: NULL is a no-op returning success, a
missing queue is an invalid state, a non-empty queue is refused, and an
empty queue is destroyed (the freed object is modelled as none). -/
def mo_mq_destroy : Option mq_t → Int × Option mq_t
  | none => (ERR_OK, none)
  | some mq =>
    match mq.q with
    | none => (ERR_FAIL, some mq)
    | some msgs =>
      if msgs.length ≠ 0 then (ERR_MQ_NOTEMPTY, some mq)
      else (ERR_OK, none)

/-! ## Condition variable timed wait, from the mutex source file

The C function suspends in the middle (mo_task_yield), so it is embedded
as two phases: the entry phase up to the yield, and the resume phase that
runs when the scheduler hands control back.
-/

/-- Outcome of a condition wait phase.  blocked_on_cond marks the yield
inside timedwait; blocked_on_lock marks a suspension inside the final
mutex re-acquisition (wait_status records the pending timeout verdict). -/
inductive cond_outcome_t where
  | ret (code : Int) (ks : kernel_t) (c : Option cond_t) (m : Option mutex_t)
  | blocked_on_cond (ks : kernel_t) (c : Option cond_t) (m : Option mutex_t)
  | blocked_on_lock (wait_status : Int) (ks : kernel_t) (c : Option cond_t)
      (m : Option mutex_t)
  | panicked (code : Int)
deriving DecidableEq

/-- Embedding of mo_cond_timedwait up to its yield: validation, ownership
check, the zero-tick early timeout, enqueue on the condition waiter list
with delay and BLOCKED state, then release of the mutex.  On a release
failure the enqueue is undone and the failure returned. -/
def mo_cond_timedwait_entry (ks : kernel_t) (oc : Option cond_t)
    (om : Option mutex_t) (ticks : Nat) : cond_outcome_t :=
  if cond_is_valid oc = false ∨ mutex_is_valid om = false then
    .panicked ERR_SEM_OPERATION
  else if mo_mutex_owned_by_current ks om = false then
    .ret ERR_NOT_OWNER ks oc om
  else if ticks = 0 then .ret ERR_TIMEOUT ks oc om
  else
    match oc with
    | none => .panicked ERR_SEM_OPERATION
    | some c =>
      let c1 : cond_t := { c with waiters := c.waiters.map (· ++ [ks.curr]) }
      let ks1 := upd_task ks ks.curr
        (fun t => { t with delay := ticks, state := .blocked })
      match mo_mutex_unlock ks1 om with
      | .panicked code => .panicked code
      | .ok ur ks2 om2 =>
        if ur ≠ ERR_OK then
          let c2 : cond_t :=
            { c1 with waiters := c1.waiters.map (·.erase ks.curr) }
          let ks3 := upd_task ks2 ks.curr
            (fun t => { t with state := .ready, delay := 0 })
          .ret ur ks3 (some c2) om2
        else .blocked_on_cond ks2 (some c1) om2

/-- Embedding of the part of mo_cond_timedwait after its yield: a task
still BLOCKED timed out, so it removes itself from the waiter list,
returns to READY, clears the delay and remembers ERR_TIMEOUT; otherwise
it was signalled.  Either way the mutex is re-acquired, and a timeout
verdict takes precedence over the lock result. -/
def mo_cond_timedwait_resume (ks : kernel_t) (oc : Option cond_t)
    (om : Option mutex_t) : cond_outcome_t :=
  let self := ks.tasks.getD ks.curr default
  if self.state = .blocked then
    let oc1 := oc.map (fun c => { c with waiters := c.waiters.map (·.erase ks.curr) })
    let ks1 := upd_task ks ks.curr
      (fun t => { t with state := .ready, delay := 0 })
    match mo_mutex_lock ks1 om with
    | .ret _ ks2 om2 => .ret ERR_TIMEOUT ks2 oc1 om2
    | .blocked ks2 om2 => .blocked_on_lock ERR_TIMEOUT ks2 oc1 om2
    | .panicked code => .panicked code
  else
    match mo_mutex_lock ks om with
    | .ret code ks2 om2 => .ret code ks2 oc om2
    | .blocked ks2 om2 => .blocked_on_lock ERR_OK ks2 oc om2
    | .panicked code => .panicked code

/-- Modelled from the spec: the scheduler tick handler (sys/task.c,
absent from the tree) decrements the delay of a task blocked on a timed
primitive and resumes it when the delay expires; per spec section 4.5 the
task observes its own state still BLOCKED on a timeout wake, which is how
the primitives distinguish timeout from signal.  Only the delay has been
consumed. -/
def sched_timeout_wake (ks : kernel_t) : kernel_t :=
  upd_task ks ks.curr (fun t => { t with delay := 0 })

/-- A full timed wait that is never signalled: run the entry phase; when
it suspends, let the delay expire (sched_timeout_wake) and run the resume
phase. -/
def mo_cond_timedwait_timeout_run (ks : kernel_t) (oc : Option cond_t)
    (om : Option mutex_t) (ticks : Nat) : cond_outcome_t :=
  match mo_cond_timedwait_entry ks oc om ticks with
  | .blocked_on_cond ks1 c1 m1 =>
    mo_cond_timedwait_resume (sched_timeout_wake ks1) c1 m1
  | other => other

/-! ## Trap vector mscratch discipline, from the boot and ISR assembly

The _isr trap vector is embedded at the level the claim speaks about: the
privilege mode the machine runs in between traps, the mscratch CSR, and
the three writes the assembly performs on it.  Entry executes
csrrw sp, mscratch, sp and branches on the swapped-in value; the M-mode
return path writes zero to mscratch before mret; the U-mode return path
writes the kernel stack base (_stack) before mret.  The return path is
chosen by the MPP field of the mstatus image restored from the frame, so
a trap may exit to either mode regardless of where it entered.
-/

/-- Privilege mode of the interrupted or resumed context. -/
inductive priv_mode_t where
  | mmode
  | umode
deriving DecidableEq

/-- Machine state between traps: the running mode and the mscratch CSR. -/
structure isr_state_t where
  mode : priv_mode_t
  mscratch : Nat
deriving DecidableEq

/-- The entry instruction csrrw sp, mscratch, sp: returns the new pair
(sp, mscratch), which is the old pair exchanged. -/
def isr_entry_swap (mscratch sp : Nat) : Nat × Nat := (mscratch, sp)

/-- The exit path of _isr, selected by the MPP bits of the restored
mstatus: returning to M-mode writes zero to mscratch, returning to U-mode
writes the kernel stack base. -/
def isr_exit (kstack : Nat) (mpp : priv_mode_t) : isr_state_t :=
  match mpp with
  | .mmode => { mode := .mmode, mscratch := 0 }
  | .umode => { mode := .umode, mscratch := kstack }

/-- One whole trap: entry from the current state, dispatch, and exit to
the mode demanded by the restored frame. -/
def isr_trap_step (kstack : Nat) (_s : isr_state_t) (mpp : priv_mode_t) :
    isr_state_t :=
  isr_exit kstack mpp

/-- The mscratch convention: zero while M-mode code runs outside a trap,
the kernel stack base while U-mode code runs. -/
def mscratch_inv (kstack : Nat) (s : isr_state_t) : Prop :=
  (s.mode = .mmode → s.mscratch = 0) ∧
  (s.mode = .umode → s.mscratch = kstack)

/-! ## Helper lemmas -/

/-- Reading back an in-range list update returns the written value. -/
theorem list_getD_set_self {α : Type} (l : List α) (i : Nat) (a d : α)
    (h : i < l.length) : (l.set i a).getD i d = a := by
  induction l generalizing i with
  | nil => simp at h
  | cons x xs ih =>
    cases i with
    | zero => rfl
    | succ n => exact ih n (by simpa using h)

/-- Erasing an element appended to a list it does not occur in recovers
the original list. -/
theorem list_erase_append_self {α : Type} [DecidableEq α] (l : List α)
    (x : α) (h : x ∉ l) : (l ++ [x]).erase x = l := by
  induction l with
  | nil => simp
  | cons y ys ih =>
    have hxy : x ≠ y := fun he => h (he ▸ List.mem_cons_self y ys)
    have : ((y :: ys) ++ [x]).erase x = y :: ((ys ++ [x]).erase x) := by
      simp [List.erase_cons, hxy.symm]
    rw [this, ih (fun hm => h (List.mem_cons_of_mem y hm))]

/-! ## Claim theorems -/

/-- C8: destroying a NULL mutex, condition variable or message queue is a
no-op returning ERR_OK; no state changes and nothing panics. -/
theorem destroy_null_noop :
    ∀ ks : kernel_t,
      mo_mutex_destroy ks none = (ERR_OK, ks, none) ∧
      mo_cond_destroy ks none = (ERR_OK, ks, none) ∧
      mo_mq_destroy none = (ERR_OK, none) :=
  fun _ => ⟨rfl, rfl, rfl⟩

/-- C9: a timed lock with a zero tick budget behaves exactly as trylock:
same status code, same effect on the mutex and the task table, and the
outcome is an immediate return, never a suspension or an enqueue. -/
theorem timedlock_zero_eq_trylock (ks : kernel_t) (om : Option mutex_t) :
    mo_mutex_timedlock ks om 0 =
      .ret (mo_mutex_trylock ks om).1 (mo_mutex_trylock ks om).2.1
        (mo_mutex_trylock ks om).2.2 := by
  cases om with
  | none => rfl
  | some m =>
    by_cases h : mutex_is_valid (some m) <;>
      simp [mo_mutex_timedlock, mo_mutex_trylock, h]

/-- C6: locking a valid mutex the caller already owns returns
ERR_TASK_BUSY from both mo_mutex_lock and mo_mutex_trylock, leaving the
mutex and the task table untouched and never suspending the caller. -/
theorem mutex_nonrecursive_busy (ks : kernel_t) (m : mutex_t)
    (hv : mutex_is_valid (some m) = true)
    (howner : m.owner_tid = mo_task_id ks) :
    mo_mutex_lock ks (some m) = .ret ERR_TASK_BUSY ks (some m) ∧
    mo_mutex_trylock ks (some m) = (ERR_TASK_BUSY, ks, some m) := by
  constructor <;> simp [mo_mutex_lock, mo_mutex_trylock, hv, howner]

/-- C6 witness: a concrete single-task kernel whose task with id 7 owns
the mutex. -/
theorem mutex_nonrecursive_busy_witness :
    (mutex_is_valid (some ⟨MUTEX_MAGIC, 7, some []⟩) = true ∧
      (mutex_t.mk MUTEX_MAGIC 7 (some [])).owner_tid =
        mo_task_id ⟨[⟨7, .running, 0⟩], 0⟩) ∧
    (mo_mutex_lock ⟨[⟨7, .running, 0⟩], 0⟩ (some ⟨MUTEX_MAGIC, 7, some []⟩) =
        .ret ERR_TASK_BUSY ⟨[⟨7, .running, 0⟩], 0⟩
          (some ⟨MUTEX_MAGIC, 7, some []⟩) ∧
      mo_mutex_trylock ⟨[⟨7, .running, 0⟩], 0⟩
          (some ⟨MUTEX_MAGIC, 7, some []⟩) =
        (ERR_TASK_BUSY, ⟨[⟨7, .running, 0⟩], 0⟩,
          some ⟨MUTEX_MAGIC, 7, some []⟩)) :=
  ⟨⟨by decide, by decide⟩,
    mutex_nonrecursive_busy ⟨[⟨7, .running, 0⟩], 0⟩ ⟨MUTEX_MAGIC, 7, some []⟩
      (by decide) (by decide)⟩

/-- C4: the mscratch discipline of _isr.  Under the convention, the value
the entry swap moves into sp is zero exactly when the trap came from
M-mode; every complete trap re-establishes the convention, because the
M-mode return path writes zero to mscratch and the U-mode return path
writes the kernel stack base. -/
theorem isr_mscratch_invariant (kstack : Nat) (s : isr_state_t)
    (hk : kstack ≠ 0) (hinv : mscratch_inv kstack s) :
    (∀ sp : Nat, (isr_entry_swap s.mscratch sp).1 = 0 ↔ s.mode = .mmode) ∧
    (∀ mpp : priv_mode_t, mscratch_inv kstack (isr_trap_step kstack s mpp)) ∧
    (isr_trap_step kstack s .mmode).mscratch = 0 ∧
    (isr_trap_step kstack s .umode).mscratch = kstack := by
  obtain ⟨hm, hu⟩ := hinv
  refine ⟨?_, ?_, rfl, rfl⟩
  · intro sp
    cases hmode : s.mode with
    | mmode => simp [isr_entry_swap, hm hmode]
    | umode => simp [isr_entry_swap, hu hmode, hk]
  · intro mpp
    cases mpp <;> simp [isr_trap_step, isr_exit, mscratch_inv]

/-- C4 witness: a concrete kernel stack base and an M-mode state obeying
the convention. -/
theorem isr_mscratch_invariant_witness :
    ((65536 : Nat) ≠ 0 ∧ mscratch_inv 65536 ⟨.mmode, 0⟩) ∧
    ((∀ sp : Nat,
        (isr_entry_swap (isr_state_t.mk .mmode 0).mscratch sp).1 = 0 ↔
          (isr_state_t.mk .mmode 0).mode = .mmode) ∧
      (∀ mpp : priv_mode_t,
        mscratch_inv 65536 (isr_trap_step 65536 ⟨.mmode, 0⟩ mpp)) ∧
      (isr_trap_step 65536 ⟨.mmode, 0⟩ .mmode).mscratch = 0 ∧
      (isr_trap_step 65536 ⟨.mmode, 0⟩ .umode).mscratch = 65536) :=
  ⟨⟨by decide, ⟨fun _ => rfl, fun h => nomatch h⟩⟩,
    isr_mscratch_invariant 65536 ⟨.mmode, 0⟩ (by decide)
      ⟨fun _ => rfl, fun h => nomatch h⟩⟩

/-- C10: pmp_check_access computes the access end in 32-bit modular
arithmetic, so an access whose true extent passes the end of the address
space can wrap around and be allowed by a region it is not contained in.
The region spans 0x1000 to 0x2000 with read permission; the read at
0x1800 of size 2^32 - 0x100 wraps to access_end 0x1700 and is allowed. -/
theorem pmp_check_access_wraparound :
    pmp_check_access
        ⟨⟨0x1000, 0x2000, PMPCFG_R, 3, 0, 0⟩ :: List.replicate 15 default,
          1, 1, 1⟩
        0x1800 (2 ^ 32 - 0x100) 0 0 = 1 ∧
    2 ^ 32 < 0x1800 + (2 ^ 32 - 0x100) ∧
    0x2000 < 0x1800 + (2 ^ 32 - 0x100) ∧
    u32 (0x1800 + (2 ^ 32 - 0x100)) = 0x1700 ∧
    0x1000 ≤ 0x1800 ∧ (0x1700 : Nat) ≤ 0x2000 := by
  refine ⟨?_, by decide, by decide, by decide, by decide, by decide⟩
  decide

/-- The scan loop of pmp_check_access is decided by the first active
containing region in list order. -/
theorem pmp_check_scan_eq_find (addr aend w x : Nat)
    (rs : List pmp_region_t) :
    pmp_check_scan addr aend w x rs =
      match rs.find? (pmp_region_hits addr aend) with
      | none => 0
      | some r =>
        if r.permissions &&& pmp_required_perm w x = pmp_required_perm w x
        then 1 else 0 := by
  induction rs with
  | nil => rfl
  | cons r rs ih =>
    cases hd : (r.addr_start == 0 && r.addr_end == 0) with
    | true =>
      have hhits : pmp_region_hits addr aend r = false := by
        simp [pmp_region_hits, hd]
      simp [pmp_check_scan, hd, List.find?_cons, hhits, ih]
    | false =>
      cases hc : (decide (r.addr_start ≤ addr) &&
          decide (aend ≤ r.addr_end)) with
      | true =>
        have hhits : pmp_region_hits addr aend r = true := by
          simp [pmp_region_hits, hd, hc]
        simp [pmp_check_scan, hd, hc, List.find?_cons, hhits, beq_iff_eq]
      | false =>
        have hhits : pmp_region_hits addr aend r = false := by
          simp [pmp_region_hits, hd, hc]
        simp [pmp_check_scan, hd, hc, List.find?_cons, hhits, ih]

/-- C3: pmp_check_access scans the first region_count shadow entries in
increasing index order, skips entries with start and end both zero, and
is decided by the first active region fully containing the access
interval, returning 1 exactly when that region holds every required
permission bit; it returns 0 when no active region contains the access.
The access end is the uint32 sum of addr and size as the code computes
it. -/
theorem pmp_check_access_first_hit (config : pmp_config_t)
    (addr size is_write is_execute : Nat) :
    pmp_check_access config addr size is_write is_execute =
      match (config.regions.take config.region_count).find?
          (pmp_region_hits addr (u32 (addr + size))) with
      | none => 0
      | some r =>
        if r.permissions &&& pmp_required_perm is_write is_execute =
            pmp_required_perm is_write is_execute
        then 1 else 0 :=
  pmp_check_scan_eq_find addr (u32 (addr + size)) is_write is_execute
    (config.regions.take config.region_count)

/-- C2: contract of pmp_set_region.  A region index at or past 16 is
ERR_PMP_INVALID_REGION, an inverted or empty address range is
ERR_PMP_ADDR_RANGE, a locked shadow entry is ERR_PMP_LOCKED, all leaving
the hardware and shadow state untouched; on success the configuration
register desc.region_id / 4 has the 8 bits at offset
desc.region_id % 4 * 8 cleared and replaced by the TOR byte, the address
register receives addr_end, the shadow entry becomes a copy of desc, and
region_count rises to desc.region_id + 1 when needed. -/
theorem pmp_set_region_contract (hw : pmp_hw_t) (cfg : pmp_config_t)
    (desc : pmp_region_t)
    (hlen : cfg.regions.length = PMP_MAX_REGIONS) :
    (desc.region_id ≥ PMP_MAX_REGIONS →
      pmp_set_region hw cfg desc = (ERR_PMP_INVALID_REGION, hw, cfg)) ∧
    (desc.region_id < PMP_MAX_REGIONS →
      desc.addr_start ≥ desc.addr_end →
      pmp_set_region hw cfg desc = (ERR_PMP_ADDR_RANGE, hw, cfg)) ∧
    (desc.region_id < PMP_MAX_REGIONS →
      desc.addr_start < desc.addr_end →
      (cfg.regions.getD desc.region_id default).locked ≠ 0 →
      pmp_set_region hw cfg desc = (ERR_PMP_LOCKED, hw, cfg)) ∧
    (desc.region_id < PMP_MAX_REGIONS →
      desc.addr_start < desc.addr_end →
      (cfg.regions.getD desc.region_id default).locked = 0 →
      pmp_set_region hw cfg desc =
        (ERR_OK,
          { cfgRegs := hw.cfgRegs.set (desc.region_id / 4)
              (pmp_clear_slot (read_pmpcfg hw (desc.region_id / 4))
                  (desc.region_id % 4 * 8) |||
                pmp_cfg_byte desc <<< (desc.region_id % 4 * 8))
            addrRegs := hw.addrRegs.set desc.region_id desc.addr_end },
          { cfg with
            regions := cfg.regions.set desc.region_id desc
            region_count :=
              if desc.region_id ≥ cfg.region_count then desc.region_id + 1
              else cfg.region_count }) ∧
      (pmp_set_region hw cfg desc).2.2.regions.getD desc.region_id default
        = desc) := by
  refine ⟨?_, ?_, ?_, ?_⟩
  · intro h
    unfold pmp_set_region
    rw [if_pos h]
  · intro h1 h2
    unfold pmp_set_region
    rw [if_neg (by omega), if_pos h2]
  · intro h1 h2 h3
    unfold pmp_set_region
    rw [if_neg (by omega), if_neg (by omega), if_pos h3]
  · intro h1 h2 h3
    have heq : pmp_set_region hw cfg desc =
        (ERR_OK,
          { cfgRegs := hw.cfgRegs.set (desc.region_id / 4)
              (pmp_clear_slot (read_pmpcfg hw (desc.region_id / 4))
                  (desc.region_id % 4 * 8) |||
                pmp_cfg_byte desc <<< (desc.region_id % 4 * 8))
            addrRegs := hw.addrRegs.set desc.region_id desc.addr_end },
          { cfg with
            regions := cfg.regions.set desc.region_id desc
            region_count :=
              if desc.region_id ≥ cfg.region_count then desc.region_id + 1
              else cfg.region_count }) := by
      unfold pmp_set_region
      rw [if_neg (by omega), if_neg (by omega),
        if_neg (fun hcon => hcon h3)]
      rfl
    refine ⟨heq, ?_⟩
    rw [heq]
    exact list_getD_set_self cfg.regions desc.region_id desc default
      (by rw [hlen]; exact h1)

/-- C2 witness: writing region 2 of a fresh 16-entry configuration. -/
theorem pmp_set_region_contract_witness :
    (pmp_config_t.mk (List.replicate 16 default) 0 0 1).regions.length
      = PMP_MAX_REGIONS ∧
    ((pmp_region_t.mk 0x1000 0x2000 3 0 2 0).region_id ≥ PMP_MAX_REGIONS →
      pmp_set_region ⟨[0, 0, 0, 0], List.replicate 16 0⟩
          ⟨List.replicate 16 default, 0, 0, 1⟩ ⟨0x1000, 0x2000, 3, 0, 2, 0⟩
        = (ERR_PMP_INVALID_REGION, ⟨[0, 0, 0, 0], List.replicate 16 0⟩,
            ⟨List.replicate 16 default, 0, 0, 1⟩)) ∧
    ((pmp_region_t.mk 0x1000 0x2000 3 0 2 0).region_id < PMP_MAX_REGIONS →
      (pmp_region_t.mk 0x1000 0x2000 3 0 2 0).addr_start ≥
          (pmp_region_t.mk 0x1000 0x2000 3 0 2 0).addr_end →
      pmp_set_region ⟨[0, 0, 0, 0], List.replicate 16 0⟩
          ⟨List.replicate 16 default, 0, 0, 1⟩ ⟨0x1000, 0x2000, 3, 0, 2, 0⟩
        = (ERR_PMP_ADDR_RANGE, ⟨[0, 0, 0, 0], List.replicate 16 0⟩,
            ⟨List.replicate 16 default, 0, 0, 1⟩)) ∧
    ((pmp_region_t.mk 0x1000 0x2000 3 0 2 0).region_id < PMP_MAX_REGIONS →
      (pmp_region_t.mk 0x1000 0x2000 3 0 2 0).addr_start <
          (pmp_region_t.mk 0x1000 0x2000 3 0 2 0).addr_end →
      ((pmp_config_t.mk (List.replicate 16 default) 0 0 1).regions.getD
          (pmp_region_t.mk 0x1000 0x2000 3 0 2 0).region_id
          default).locked ≠ 0 →
      pmp_set_region ⟨[0, 0, 0, 0], List.replicate 16 0⟩
          ⟨List.replicate 16 default, 0, 0, 1⟩ ⟨0x1000, 0x2000, 3, 0, 2, 0⟩
        = (ERR_PMP_LOCKED, ⟨[0, 0, 0, 0], List.replicate 16 0⟩,
            ⟨List.replicate 16 default, 0, 0, 1⟩)) ∧
    ((pmp_region_t.mk 0x1000 0x2000 3 0 2 0).region_id < PMP_MAX_REGIONS →
      (pmp_region_t.mk 0x1000 0x2000 3 0 2 0).addr_start <
          (pmp_region_t.mk 0x1000 0x2000 3 0 2 0).addr_end →
      ((pmp_config_t.mk (List.replicate 16 default) 0 0 1).regions.getD
          (pmp_region_t.mk 0x1000 0x2000 3 0 2 0).region_id
          default).locked = 0 →
      pmp_set_region ⟨[0, 0, 0, 0], List.replicate 16 0⟩
          ⟨List.replicate 16 default, 0, 0, 1⟩ ⟨0x1000, 0x2000, 3, 0, 2, 0⟩
        = (ERR_OK,
            { cfgRegs := ([0, 0, 0, 0] : List Nat).set
                ((pmp_region_t.mk 0x1000 0x2000 3 0 2 0).region_id / 4)
                (pmp_clear_slot
                    (read_pmpcfg ⟨[0, 0, 0, 0], List.replicate 16 0⟩
                      ((pmp_region_t.mk 0x1000 0x2000 3 0 2 0).region_id
                        / 4))
                    ((pmp_region_t.mk 0x1000 0x2000 3 0 2 0).region_id
                      % 4 * 8) |||
                  pmp_cfg_byte ⟨0x1000, 0x2000, 3, 0, 2, 0⟩ <<<
                    ((pmp_region_t.mk 0x1000 0x2000 3 0 2 0).region_id
                      % 4 * 8))
              addrRegs := (List.replicate 16 0).set
                (pmp_region_t.mk 0x1000 0x2000 3 0 2 0).region_id
                (pmp_region_t.mk 0x1000 0x2000 3 0 2 0).addr_end },
            { pmp_config_t.mk (List.replicate 16 default) 0 0 1 with
              regions := (List.replicate 16 (default : pmp_region_t)).set
                (pmp_region_t.mk 0x1000 0x2000 3 0 2 0).region_id
                ⟨0x1000, 0x2000, 3, 0, 2, 0⟩
              region_count :=
                if (pmp_region_t.mk 0x1000 0x2000 3 0 2 0).region_id ≥
                    (pmp_config_t.mk (List.replicate 16 default) 0 0 1
                      ).region_count
                then (pmp_region_t.mk 0x1000 0x2000 3 0 2 0).region_id + 1
                else (pmp_config_t.mk (List.replicate 16 default) 0 0 1
                  ).region_count }) ∧
      (pmp_set_region ⟨[0, 0, 0, 0], List.replicate 16 0⟩
          ⟨List.replicate 16 default, 0, 0, 1⟩
          ⟨0x1000, 0x2000, 3, 0, 2, 0⟩).2.2.regions.getD
          (pmp_region_t.mk 0x1000 0x2000 3 0 2 0).region_id default
        = ⟨0x1000, 0x2000, 3, 0, 2, 0⟩) :=
  ⟨by decide,
    pmp_set_region_contract ⟨[0, 0, 0, 0], List.replicate 16 0⟩
      ⟨List.replicate 16 default, 0, 0, 1⟩ ⟨0x1000, 0x2000, 3, 0, 2, 0⟩
      (by decide)⟩

/-- C7: after a successful pmp_set_region, pmp_get_region on the same
index succeeds and returns the region that was written: addr_start,
addr_end, permissions, priority and locked are the values of the
descriptor, and region_id is normalized to the queried index, which is
the index that was written. -/
theorem pmp_set_get_roundtrip (hw : pmp_hw_t) (cfg : pmp_config_t)
    (desc : pmp_region_t)
    (hlen : cfg.regions.length = PMP_MAX_REGIONS)
    (hok : (pmp_set_region hw cfg desc).1 = ERR_OK) :
    pmp_get_region (pmp_set_region hw cfg desc).2.2 desc.region_id
      = .ok desc := by
  by_cases h1 : desc.region_id ≥ PMP_MAX_REGIONS
  · exfalso
    unfold pmp_set_region at hok
    rw [if_pos h1] at hok
    have hbad : ERR_PMP_INVALID_REGION = ERR_OK := hok
    exact absurd hbad (by decide)
  by_cases h2 : desc.addr_start ≥ desc.addr_end
  · exfalso
    unfold pmp_set_region at hok
    rw [if_neg h1, if_pos h2] at hok
    have hbad : ERR_PMP_ADDR_RANGE = ERR_OK := hok
    exact absurd hbad (by decide)
  by_cases h3 : (cfg.regions.getD desc.region_id default).locked ≠ 0
  · exfalso
    unfold pmp_set_region at hok
    rw [if_neg h1, if_neg h2, if_pos h3] at hok
    have hbad : ERR_PMP_LOCKED = ERR_OK := hok
    exact absurd hbad (by decide)
  have heq : (pmp_set_region hw cfg desc).2.2.regions
      = cfg.regions.set desc.region_id desc := by
    unfold pmp_set_region
    rw [if_neg h1, if_neg h2, if_neg h3]
  have hg : ((pmp_set_region hw cfg desc).2.2.regions).getD
      desc.region_id default = desc := by
    rw [heq]
    exact list_getD_set_self cfg.regions desc.region_id desc default
      (by rw [hlen]; exact Nat.lt_of_not_le h1)
  unfold pmp_get_region
  rw [if_neg h1, hg]

/-- C7 witness: region 5 of a fresh configuration, written and read
back. -/
theorem pmp_set_get_roundtrip_witness :
    (pmp_config_t.mk (List.replicate 16 default) 0 0 1).regions.length
        = PMP_MAX_REGIONS ∧
    (pmp_set_region ⟨[0, 0, 0, 0], List.replicate 16 0⟩
        ⟨List.replicate 16 default, 0, 0, 1⟩
        ⟨0x8000, 0x9000, 5, 1, 5, 0⟩).1 = ERR_OK ∧
    pmp_get_region
        (pmp_set_region ⟨[0, 0, 0, 0], List.replicate 16 0⟩
          ⟨List.replicate 16 default, 0, 0, 1⟩
          ⟨0x8000, 0x9000, 5, 1, 5, 0⟩).2.2
        (pmp_region_t.mk 0x8000 0x9000 5 1 5 0).region_id
      = .ok ⟨0x8000, 0x9000, 5, 1, 5, 0⟩ :=
  ⟨by decide, by decide,
    pmp_set_get_roundtrip ⟨[0, 0, 0, 0], List.replicate 16 0⟩
      ⟨List.replicate 16 default, 0, 0, 1⟩ ⟨0x8000, 0x9000, 5, 1, 5, 0⟩
      (by decide) (by decide)⟩

/-- C1: contract of mo_mutex_unlock on a valid mutex.  A caller that is
not the owner gets ERR_NOT_OWNER with nothing changed; the owner with no
waiters frees the mutex; the owner with a waiter FIFO pops its head, and
when that waiter is BLOCKED the mutex owner becomes the id of that
waiter, its delay is cleared and its state becomes READY, transferring
ownership directly without re-contention. -/
theorem mutex_unlock_contract (ks : kernel_t) (m : mutex_t)
    (hv : mutex_is_valid (some m) = true) :
    (m.owner_tid ≠ mo_task_id ks →
      mo_mutex_unlock ks (some m) = .ok ERR_NOT_OWNER ks (some m)) ∧
    (m.owner_tid = mo_task_id ks → m.waiters = some [] →
      mo_mutex_unlock ks (some m)
        = .ok ERR_OK ks (some { m with owner_tid := 0 })) ∧
    (∀ w rest, m.owner_tid = mo_task_id ks →
      m.waiters = some (w :: rest) →
      (ks.tasks.getD w default).state = .blocked →
      mo_mutex_unlock ks (some m)
        = .ok ERR_OK
            (upd_task ks w (fun t => { t with state := .ready, delay := 0 }))
            (some { m with
                    owner_tid := (ks.tasks.getD w default).id
                    waiters := some rest })) := by
  refine ⟨?_, ?_, ?_⟩
  · intro hno
    simp [mo_mutex_unlock, hv, hno]
  · intro hown hemp
    simp [mo_mutex_unlock, hv, hown, hemp]
  · intro w rest hown hwtr hst
    rw [List.getD_eq_getElem?_getD] at hst
    simp [mo_mutex_unlock, hv, hown, hwtr, hst]

/-- C1 witness: task 5 owns the mutex, task with index 1 and id 9 is the
blocked head of the waiter list. -/
theorem mutex_unlock_contract_witness :
    mutex_is_valid (some ⟨MUTEX_MAGIC, 5, some [1]⟩) = true ∧
    (((mutex_t.mk MUTEX_MAGIC 5 (some [1])).owner_tid ≠
        mo_task_id ⟨[⟨5, .running, 0⟩, ⟨9, .blocked, 4⟩], 0⟩ →
      mo_mutex_unlock ⟨[⟨5, .running, 0⟩, ⟨9, .blocked, 4⟩], 0⟩
          (some ⟨MUTEX_MAGIC, 5, some [1]⟩)
        = .ok ERR_NOT_OWNER ⟨[⟨5, .running, 0⟩, ⟨9, .blocked, 4⟩], 0⟩
            (some ⟨MUTEX_MAGIC, 5, some [1]⟩)) ∧
    ((mutex_t.mk MUTEX_MAGIC 5 (some [1])).owner_tid =
        mo_task_id ⟨[⟨5, .running, 0⟩, ⟨9, .blocked, 4⟩], 0⟩ →
      (mutex_t.mk MUTEX_MAGIC 5 (some [1])).waiters = some [] →
      mo_mutex_unlock ⟨[⟨5, .running, 0⟩, ⟨9, .blocked, 4⟩], 0⟩
          (some ⟨MUTEX_MAGIC, 5, some [1]⟩)
        = .ok ERR_OK ⟨[⟨5, .running, 0⟩, ⟨9, .blocked, 4⟩], 0⟩
            (some { mutex_t.mk MUTEX_MAGIC 5 (some [1]) with
                    owner_tid := 0 })) ∧
    (∀ w rest,
      (mutex_t.mk MUTEX_MAGIC 5 (some [1])).owner_tid =
        mo_task_id ⟨[⟨5, .running, 0⟩, ⟨9, .blocked, 4⟩], 0⟩ →
      (mutex_t.mk MUTEX_MAGIC 5 (some [1])).waiters = some (w :: rest) →
      ((kernel_t.mk [⟨5, .running, 0⟩, ⟨9, .blocked, 4⟩] 0).tasks.getD w
          default).state = .blocked →
      mo_mutex_unlock ⟨[⟨5, .running, 0⟩, ⟨9, .blocked, 4⟩], 0⟩
          (some ⟨MUTEX_MAGIC, 5, some [1]⟩)
        = .ok ERR_OK
            (upd_task ⟨[⟨5, .running, 0⟩, ⟨9, .blocked, 4⟩], 0⟩ w
              (fun t => { t with state := .ready, delay := 0 }))
            (some { mutex_t.mk MUTEX_MAGIC 5 (some [1]) with
                    owner_tid :=
                      ((kernel_t.mk [⟨5, .running, 0⟩, ⟨9, .blocked, 4⟩] 0
                        ).tasks.getD w default).id
                    waiters := some rest }))) :=
  ⟨by decide,
    mutex_unlock_contract ⟨[⟨5, .running, 0⟩, ⟨9, .blocked, 4⟩], 0⟩
      ⟨MUTEX_MAGIC, 5, some [1]⟩ (by decide)⟩

/-- Updating a task leaves the current-task index unchanged. -/
theorem upd_task_curr (ks : kernel_t) (i : Nat) (f : tcb_t → tcb_t) :
    (upd_task ks i f).curr = ks.curr := rfl

/-- The task table after upd_task. -/
theorem upd_task_tasks (ks : kernel_t) (i : Nat) (f : tcb_t → tcb_t) :
    (upd_task ks i f).tasks
      = ks.tasks.set i (f (ks.tasks.getD i default)) := rfl

/-- An id-preserving update of the current task does not change
mo_task_id. -/
theorem mo_task_id_upd_curr (ks : kernel_t) (f : tcb_t → tcb_t)
    (hcur : ks.curr < ks.tasks.length) (hf : ∀ t, (f t).id = t.id) :
    mo_task_id (upd_task ks ks.curr f) = mo_task_id ks := by
  unfold mo_task_id
  rw [upd_task_curr, upd_task_tasks, list_getD_set_self _ _ _ _ hcur, hf]

/-- Two successive updates of the current task fuse. -/
theorem upd_task_upd_task (ks : kernel_t) (f g : tcb_t → tcb_t)
    (hcur : ks.curr < ks.tasks.length) :
    upd_task (upd_task ks ks.curr f) ks.curr g
      = upd_task ks ks.curr (fun t => g (f t)) := by
  unfold upd_task
  congr 1
  rw [list_getD_set_self _ _ _ _ hcur, List.set_set]

/-- C5: a timed condition wait that is never signalled.  The caller owns
the valid mutex m, no other task contends for m, and the tick budget is
positive.  The entry phase parks the caller on the condition waiter list
and releases m; when the delay expires without a signal, the resume phase
detects the timeout, removes the caller from the waiter list and
re-acquires m before returning, so the call yields ERR_TIMEOUT with the
caller owning m again, the condition variable as before the call, and the
caller READY with a cleared delay. -/
theorem cond_timedwait_timeout_contract (ks : kernel_t) (c : cond_t)
    (m : mutex_t) (ticks : Nat)
    (hc : cond_is_valid (some c) = true)
    (hm : mutex_is_valid (some m) = true)
    (hown : m.owner_tid = mo_task_id ks)
    (hid0 : mo_task_id ks ≠ 0)
    (hnw : m.waiters = some [])
    (hticks : ticks ≠ 0)
    (hcur : ks.curr < ks.tasks.length)
    (hnotin : ks.curr ∉ c.waiters.getD []) :
    mo_cond_timedwait_timeout_run ks (some c) (some m) ticks
      = .ret ERR_TIMEOUT
          (upd_task ks ks.curr
            (fun t => { t with state := .ready, delay := 0 }))
          (some c) (some { m with owner_tid := mo_task_id ks }) := by
  obtain ⟨wl, hwl⟩ : ∃ wl, c.waiters = some wl := by
    cases hcw : c.waiters with
    | none => simp [cond_is_valid, hcw] at hc
    | some l => exact ⟨l, rfl⟩
  rw [hwl] at hnotin
  simp only [Option.getD_some] at hnotin
  have hmparts := hm
  simp only [mutex_is_valid, Bool.and_eq_true] at hmparts
  have hid1 : mo_task_id (upd_task ks ks.curr
      (fun t => { t with delay := ticks, state := .blocked }))
      = mo_task_id ks :=
    mo_task_id_upd_curr ks _ hcur (fun _ => rfl)
  have hunlock :
      mo_mutex_unlock
        (upd_task ks ks.curr
          (fun t => { t with delay := ticks, state := .blocked }))
        (some m)
      = .ok ERR_OK
          (upd_task ks ks.curr
            (fun t => { t with delay := ticks, state := .blocked }))
          (some { m with owner_tid := 0 }) := by
    simp [mo_mutex_unlock, hm, hid1, hown, hnw]
  have hno : mo_mutex_owned_by_current ks (some m) = true := by
    simp [mo_mutex_owned_by_current, hm, hown]
  have hentry : mo_cond_timedwait_entry ks (some c) (some m) ticks
      = .blocked_on_cond
          (upd_task ks ks.curr
            (fun t => { t with delay := ticks, state := .blocked }))
          (some { c with waiters := some (wl ++ [ks.curr]) })
          (some { m with owner_tid := 0 }) := by
    simp [mo_cond_timedwait_entry, hc, hm, hno, hticks, hunlock, hwl,
      ERR_OK]
  have hwake : sched_timeout_wake
      (upd_task ks ks.curr
        (fun t => { t with delay := ticks, state := .blocked }))
      = upd_task ks ks.curr
          (fun t => { t with state := .blocked, delay := 0 }) := by
    unfold sched_timeout_wake
    rw [upd_task_curr, upd_task_upd_task ks _ _ hcur]
  have hst : ((upd_task ks ks.curr
      (fun t => { t with state := .blocked, delay := 0 })
        ).tasks[ks.curr]?.getD
      default).state = task_state_t.blocked := by
    rw [← List.getD_eq_getElem?_getD, upd_task_tasks,
      list_getD_set_self _ _ _ _ hcur]
  have hm1 : mutex_is_valid (some { m with owner_tid := 0 }) = true := by
    simp [mutex_is_valid, hmparts.1.1, hmparts.1.2]
  have hid2 : mo_task_id (upd_task (upd_task ks ks.curr
      (fun t => { t with state := .blocked, delay := 0 })) ks.curr
      (fun t => { t with state := .ready, delay := 0 }))
      = mo_task_id ks := by
    rw [upd_task_upd_task ks _ _ hcur]
    exact mo_task_id_upd_curr ks _ hcur (fun _ => rfl)
  have hlock : mo_mutex_lock
      (upd_task (upd_task ks ks.curr
        (fun t => { t with state := .blocked, delay := 0 })) ks.curr
        (fun t => { t with state := .ready, delay := 0 }))
      (some { m with owner_tid := 0 })
      = .ret ERR_OK
          (upd_task (upd_task ks ks.curr
            (fun t => { t with state := .blocked, delay := 0 })) ks.curr
            (fun t => { t with state := .ready, delay := 0 }))
          (some { m with owner_tid := mo_task_id ks }) := by
    simp [mo_mutex_lock, hm1, hid2, hid0, Ne.symm hid0]
  have hcc : ({ c with waiters := some wl } : cond_t) = c := by
    rw [← hwl]
  have hresume : mo_cond_timedwait_resume
      (upd_task ks ks.curr
        (fun t => { t with state := .blocked, delay := 0 }))
      (some { c with waiters := some (wl ++ [ks.curr]) })
      (some { m with owner_tid := 0 })
      = .ret ERR_TIMEOUT
          (upd_task (upd_task ks ks.curr
            (fun t => { t with state := .blocked, delay := 0 })) ks.curr
            (fun t => { t with state := .ready, delay := 0 }))
          (some c) (some { m with owner_tid := mo_task_id ks }) := by
    simp [mo_cond_timedwait_resume, upd_task_curr, hst,
      list_erase_append_self wl ks.curr hnotin, hcc, hlock]
  simp only [mo_cond_timedwait_timeout_run, hentry]
  rw [hwake, hresume, upd_task_upd_task ks _ _ hcur]

/-- C5 witness: a single task with id 1 owning the mutex, an empty
condition variable, and a budget of 3 ticks with no signaller. -/
theorem cond_timedwait_timeout_contract_witness :
    (cond_is_valid (some ⟨COND_MAGIC, some []⟩) = true ∧
      mutex_is_valid (some ⟨MUTEX_MAGIC, 1, some []⟩) = true ∧
      (mutex_t.mk MUTEX_MAGIC 1 (some [])).owner_tid
        = mo_task_id ⟨[⟨1, .running, 0⟩], 0⟩ ∧
      mo_task_id ⟨[⟨1, .running, 0⟩], 0⟩ ≠ 0 ∧
      (mutex_t.mk MUTEX_MAGIC 1 (some [])).waiters = some [] ∧
      (3 : Nat) ≠ 0 ∧
      (kernel_t.mk [⟨1, .running, 0⟩] 0).curr
        < (kernel_t.mk [⟨1, .running, 0⟩] 0).tasks.length ∧
      (kernel_t.mk [⟨1, .running, 0⟩] 0).curr
        ∉ (cond_t.mk COND_MAGIC (some [])).waiters.getD []) ∧
    mo_cond_timedwait_timeout_run ⟨[⟨1, .running, 0⟩], 0⟩
        (some ⟨COND_MAGIC, some []⟩) (some ⟨MUTEX_MAGIC, 1, some []⟩) 3
      = .ret ERR_TIMEOUT
          (upd_task ⟨[⟨1, .running, 0⟩], 0⟩
            (kernel_t.mk [⟨1, .running, 0⟩] 0).curr
            (fun t => { t with state := .ready, delay := 0 }))
          (some ⟨COND_MAGIC, some []⟩)
          (some { mutex_t.mk MUTEX_MAGIC 1 (some []) with
                  owner_tid := mo_task_id ⟨[⟨1, .running, 0⟩], 0⟩ }) :=
  ⟨⟨by decide, by decide, by decide, by decide, by decide, by decide,
      by decide, by decide⟩,
    cond_timedwait_timeout_contract ⟨[⟨1, .running, 0⟩], 0⟩
      ⟨COND_MAGIC, some []⟩ ⟨MUTEX_MAGIC, 1, some []⟩ 3 (by decide)
      (by decide) (by decide) (by decide) (by decide) (by decide)
      (by decide) (by decide)⟩

end Linmo
